import Mathlib

/-
Verification of the glue-logic claims of the FyroxEngine/Fyrox-tutorials
repository.  The relevant Rust code (weapon cool-down, recoil easing,
yaw/pitch camera controllers, the pursuit bot, the platformer movement and
keyframe-animation code, and the UUID-keyed script registry) is shallowly
embedded below: `f32` arithmetic is modelled over `ℚ` (all constants in the
sources are short decimal literals), scene-graph handles over `ℕ`, and
fallible code over `Option`.  Comparisons of the form `v.norm() < eps` are
embedded as the equivalent `normSq v < eps^2` so that everything stays in
`ℚ`; where a genuine square root is needed (the bot's distance to its
target) the distance is passed explicitly, constrained by its defining
equation `dist * dist = normSq direction`, `0 ≤ dist`.
-/

namespace Spec2Proof

/-! ## Shared vector and scalar helpers -/

/-- Three-component vector over `ℚ`, embedding `Vector3<f32>`. -/
structure Vec3 where
  x : ℚ
  y : ℚ
  z : ℚ
deriving DecidableEq

/-- Two-component vector over `ℚ`, embedding `Vector2<f32>`. -/
structure Vec2 where
  x : ℚ
  y : ℚ
deriving DecidableEq

def Vec3.zero : Vec3 := ⟨0, 0, 0⟩

def Vec3.add (a b : Vec3) : Vec3 := ⟨a.x + b.x, a.y + b.y, a.z + b.z⟩

def Vec3.sub (a b : Vec3) : Vec3 := ⟨a.x - b.x, a.y - b.y, a.z - b.z⟩

def Vec3.scale (a : Vec3) (s : ℚ) : Vec3 := ⟨a.x * s, a.y * s, a.z * s⟩

/-- Squared euclidean norm; `v.norm()` in the sources is `√(normSq v)`. -/
def Vec3.normSq (a : Vec3) : ℚ := a.x ^ 2 + a.y ^ 2 + a.z ^ 2

/-- Embedding of `f32::max` (no NaN in the rational model). -/
def fmax (a b : ℚ) : ℚ := max a b

/-- Embedding of `f32::min` (no NaN in the rational model). -/
def fmin (a b : ℚ) : ℚ := min a b

/-- Embedding of Rust `f32::clamp(self, lo, hi)`:
`if self < min { min } else if self > max { max } else { self }`. -/
def fclamp (x lo hi : ℚ) : ℚ := if x < lo then lo else if x > hi then hi else x

/-- Embedding of Rust `f32::copysign`: magnitude of `mag`, sign of `sgn`. -/
def copysign (mag sgn : ℚ) : ℚ := if sgn < 0 then -|mag| else |mag|

/-- The `f32` value of `90.0f32.to_radians()` (the nearest `f32` to π/2,
bit pattern 0x3FC90FDB, i.e. (2^23 + 0x490FDB) / 2^23), used as the pitch
bound by the controllers that store angles in radians. -/
def rad90 : ℚ := 13176795 / 8388608

/-! ## tutorial2-weapons: `Weapon` (src/tutorial2-weapons/src/weapon.rs)

The scene graph is reduced to the only piece of it this code touches:
the local position of each node, keyed by its handle. -/

def Graph3 : Type := ℕ → Vec3

def Graph3.setPosition (g : Graph3) (h : ℕ) (p : Vec3) : Graph3 :=
  fun n => if n = h then p else g n

structure Weapon where
  model : ℕ
  shot_point : ℕ
  shot_timer : ℚ
  recoil_offset : Vec3
  recoil_target_offset : Vec3

/-- Modelled from the spec: `Vector3Ext::follow` lives in the fyrox engine
crate, not in this repository.  Per the comment at its call site in
weapon.rs it "just increases or decreases vector's value in order to
'follow' the target value with given speed": each component moves toward
the target by the given fraction of the remaining difference. -/
def Vec3.follow (v target : Vec3) (speed : ℚ) : Vec3 :=
  Vec3.add v (Vec3.scale (Vec3.sub target v) speed)

/-- `Weapon::update(dt, graph)`: ticks the cool-down timer (clamped at 0),
eases `recoil_offset` toward `recoil_target_offset` with speed 0.5, writes
the offset into the weapon model's local position, and resets the target
offset to zero once the offset is within 0.001 of it
(`metric_distance < 0.001` is embedded as `normSq < 0.001^2`). -/
def Weapon.update (w : Weapon) (dt : ℚ) (g : Graph3) : Weapon × Graph3 :=
  let shot_timer' := fmax (w.shot_timer - dt) 0
  let recoil_offset' := Vec3.follow w.recoil_offset w.recoil_target_offset 0.5
  let g' := Graph3.setPosition g w.model recoil_offset'
  let recoil_target_offset' :=
    if Vec3.normSq (Vec3.sub recoil_offset' w.recoil_target_offset) < 0.001 ^ 2 then
      Vec3.zero
    else
      w.recoil_target_offset
  ({ w with
      shot_timer := shot_timer'
      recoil_offset := recoil_offset'
      recoil_target_offset := recoil_target_offset' },
    g')

/-- `Weapon::can_shoot()`. -/
def Weapon.can_shoot (w : Weapon) : Bool := decide (w.shot_timer ≤ 0)

/-- `Weapon::shoot()`. -/
def Weapon.shoot (w : Weapon) : Weapon :=
  { w with shot_timer := 0.1, recoil_target_offset := ⟨0, 0, -0.025⟩ }

/-- A sequence of `Weapon::update` calls with the given `dt` values. -/
def Weapon.updates (w : Weapon) (g : Graph3) (dts : List ℚ) : Weapon × Graph3 :=
  dts.foldl (fun wg dt => Weapon.update wg.1 dt wg.2) (w, g)

/-! ## tutorial2-weapons: `Game::shoot_weapon` (src/tutorial2-weapons/src/main.rs)

The physics world is external to the repository: the list of ray-cast
intersections (already sorted by the engine) is taken as an input.  The
visual/physical consequences of a shot are recorded as an effect list;
their geometric parameters that involve `f32` square roots (trail length)
are not referenced by any claim and are left out of the effect payload. -/

structure Intersection where
  collider : ℕ
  position : Vec3
  normal : Vec3
deriving DecidableEq

inductive ShotEffect where
  /-- the ray cast performed through `graph.physics.cast_ray`. -/
  | rayCast (origin dir : Vec3)
  /-- force applied to the hit rigid body plus the `create_bullet_impact`
  particle system at the intersection point. -/
  | impact (position normal : Vec3)
  /-- the `create_shot_trail` mesh. -/
  | trail (origin dir : Vec3)
deriving DecidableEq

/-- `Game::shoot_weapon`: everything is guarded by `weapon.can_shoot()`;
the first intersection whose collider differs from the player's capsule is
the one acted upon. -/
def Game.shoot_weapon (w : Weapon) (rayOrigin rayDir : Vec3)
    (intersections : List Intersection) (playerCollider : ℕ) :
    Weapon × List ShotEffect :=
  if w.can_shoot then
    let w' := w.shoot
    match intersections.find? (fun i => i.collider != playerCollider) with
    | some i =>
        (w', [ShotEffect.rayCast rayOrigin rayDir,
              ShotEffect.impact i.position i.normal,
              ShotEffect.trail rayOrigin rayDir])
    | none =>
        (w', [ShotEffect.rayCast rayOrigin rayDir,
              ShotEffect.trail rayOrigin rayDir])
  else
    (w, [])

/-! ## Input events

A shared event type covering the window/device events the tutorial input
handlers actually match on (WASD/Space keyboard input, left mouse button,
relative mouse motion). -/

inductive Key where
  | W
  | A
  | S
  | D
  | Space
  | otherKey
deriving DecidableEq

inductive GameEvent where
  | keyboard (key : Key) (pressed : Bool)
  | mouseMotion (dx dy : ℚ)
  | mouseInput (leftButton : Bool) (pressed : Bool)
  | otherEvent
deriving DecidableEq

/-- `winit` `DeviceEvent`, as matched by `CameraController::handle_device_event`. -/
inductive DeviceEvent where
  | mouseMotion (dx dy : ℚ)
  | otherDeviceEvent
deriving DecidableEq

/-! ## tutorial1-character-controller: `Player::process_input_event`
(src/tutorial1-character-controller/src/main.rs)

The handler only reads and writes `self.controller`, so it is embedded as a
function on the `InputController`. -/

namespace Tutorial1

structure InputController where
  move_forward : Bool
  move_backward : Bool
  move_left : Bool
  move_right : Bool
  pitch : ℚ
  yaw : ℚ
deriving DecidableEq

/-- `Player::process_input_event`: WASD sets the movement flags; mouse
motion subtracts `delta.0` from yaw and clamps `pitch + delta.1` to
±90 (degrees). -/
def process_input_event (c : InputController) (e : GameEvent) : InputController :=
  match e with
  | .keyboard k pressed =>
    match k with
    | .W => { c with move_forward := pressed }
    | .S => { c with move_backward := pressed }
    | .A => { c with move_left := pressed }
    | .D => { c with move_right := pressed }
    | _ => c
  | .mouseMotion dx dy =>
    { c with
        yaw := c.yaw - dx
        pitch := fclamp (c.pitch + dy) (-90) 90 }
  | _ => c

/-- A whole sequence of OS events fed through `process_input_event`. -/
def process_events (c : InputController) (es : List GameEvent) : InputController :=
  es.foldl process_input_event c

end Tutorial1

/-! ## tutorial2-weapons: `Player::process_input_event`
(src/tutorial2-weapons/src/main.rs) -/

namespace Tutorial2

structure InputController where
  move_forward : Bool
  move_backward : Bool
  move_left : Bool
  move_right : Bool
  pitch : ℚ
  yaw : ℚ
  shoot : Bool
deriving DecidableEq

/-- `Player::process_input_event`: WASD movement flags, left mouse button
sets `shoot`, and mouse motion updates yaw/pitch with `mouse_sens = 0.5`,
clamping the pitch to ±90 (degrees). -/
def process_input_event (c : InputController) (e : GameEvent) : InputController :=
  match e with
  | .keyboard k pressed =>
    match k with
    | .W => { c with move_forward := pressed }
    | .S => { c with move_backward := pressed }
    | .A => { c with move_left := pressed }
    | .D => { c with move_right := pressed }
    | _ => c
  | .mouseInput leftButton pressed =>
    if leftButton then { c with shoot := pressed } else c
  | .mouseMotion dx dy =>
    { c with
        yaw := c.yaw - 0.5 * dx
        pitch := fclamp (c.pitch + 0.5 * dy) (-90) 90 }
  | _ => c

/-- A whole sequence of OS events fed through `process_input_event`. -/
def process_events (c : InputController) (es : List GameEvent) : InputController :=
  es.foldl process_input_event c

end Tutorial2

/-! ## rpg-tutorial1-character-controller: `CameraController`
(src/rpg-tutorial1-character-controller/src/player/camera.rs) -/

namespace Rpg

structure CameraController where
  pivot : ℕ
  hinge : ℕ
  camera : ℕ
  yaw : ℚ
  pitch : ℚ
deriving DecidableEq

/-- `CameraController::handle_device_event`: on mouse motion, yaw
decreases by `delta.0 * 0.015` and pitch is limited to the
[-90°; 90°] range (in radians) via `.max(...).min(...)`. -/
def CameraController.handle_device_event (c : CameraController)
    (e : DeviceEvent) : CameraController :=
  match e with
  | .mouseMotion dx dy =>
    { c with
        yaw := c.yaw - dx * 0.015
        pitch := fmin (fmax (c.pitch + dy * 0.015) (-rad90)) rad90 }
  | _ => c

/-- A whole sequence of device events fed through `handle_device_event`. -/
def CameraController.handle_device_events (c : CameraController)
    (es : List DeviceEvent) : CameraController :=
  es.foldl CameraController.handle_device_event c

end Rpg

/-! ## rpg-tutorial1-character-controller (scripted version): `Player`
(src/rpg-tutorial1-character-controller/game/src/player.rs)

Only the fields touched by `on_os_event` and the claims are kept; the
`model_yaw : SmoothAngle` easing state (used by `on_update` only) and the
`InheritableVariable` wrappers around the handle fields are engine-side
details and are dropped. -/

namespace RpgGame

structure Player where
  camera_pivot : ℕ
  camera_hinge : ℕ
  state_machine : ℕ
  model_pivot : ℕ
  model : ℕ
  walk_forward : Bool
  walk_backward : Bool
  walk_left : Bool
  walk_right : Bool
  yaw : ℚ
  pitch : ℚ
deriving DecidableEq

/-- `Player::on_os_event`: WASD movement flags; on mouse motion, with
`mouse_sens = 0.2 * ctx.dt`, yaw decreases by `delta.0 * mouse_sens` and
pitch is clamped to `±90.0f32.to_radians()`. -/
def Player.on_os_event (p : Player) (e : GameEvent) (dt : ℚ) : Player :=
  match e with
  | .keyboard k pressed =>
    match k with
    | .W => { p with walk_forward := pressed }
    | .S => { p with walk_backward := pressed }
    | .A => { p with walk_left := pressed }
    | .D => { p with walk_right := pressed }
    | _ => p
  | .mouseMotion dx dy =>
    { p with
        yaw := p.yaw - dx * (0.2 * dt)
        pitch := fclamp (p.pitch + dy * (0.2 * dt)) (-rad90) rad90 }
  | _ => p

/-- A whole sequence of OS events (all with the same frame `dt`) fed
through `on_os_event`. -/
def Player.on_os_events (p : Player) (es : List GameEvent) (dt : ℚ) : Player :=
  es.foldl (fun q e => Player.on_os_event q e dt) p

end RpgGame

/-! ## tutorial3-bots-ai: `Bot::update` (src/tutorial3-bots-ai/src/bot.rs)

The bot's scene-side state (global position of its pivot, the rigid body's
rotation and linear velocity) is gathered into one record.  Rotations are
never inspected by the code, only constructed through
`UnitQuaternion::face_towards` and carried along, so they are embedded as
a free algebra: either some initial rotation (tagged) or a `face_towards`
value.  `distance = direction.norm()` involves an `f32` square root; it is
passed explicitly and constrained in the theorems by `0 ≤ dist` and
`dist * dist = normSq direction`. -/

inductive Rot where
  | someRotation (tag : ℕ)
  | face_towards (dir : Vec3) (up : Vec3)
deriving DecidableEq

def yAxis : Vec3 := ⟨0, 1, 0⟩

structure BotState where
  position : Vec3
  rotation : Rot
  linVel : Vec3
  follow_target : Bool
deriving DecidableEq

structure BotAnimationMachineInput where
  walk : Bool
  attack : Bool
deriving DecidableEq

/-- `Bot::update(scene, dt, target)` up to the animation-machine call: the
returned `BotAnimationMachineInput` is exactly what is handed to
`BotAnimationMachine::update`. -/
def Bot.update (b : BotState) (target : Vec3) (dist : ℚ) :
    BotState × BotAnimationMachineInput :=
  let attack_distance : ℚ := 0.6
  let direction := Vec3.sub target b.position
  let follow' := if dist ≠ 0 ∧ dist < 1.5 then true else b.follow_target
  let b1 := { b with follow_target := follow' }
  let b2 :=
    if follow' = true ∧ dist ≠ 0 then
      let bRot := { b1 with
        rotation := Rot.face_towards ⟨direction.x, 0, direction.z⟩ yAxis }
      if dist > attack_distance then
        let xz_velocity := Vec3.scale (Vec3.scale direction (1 / dist)) 0.9
        { bRot with linVel := ⟨xz_velocity.x, b.linVel.y, xz_velocity.z⟩ }
      else
        bRot
    else
      b1
  (b2, { walk := follow' && decide (dist > attack_distance),
         attack := decide (dist < attack_distance) })

/-- A sequence of `Bot::update` calls, each with its own target/distance. -/
def Bot.updates (b : BotState) (steps : List (Vec3 × ℚ)) : BotState :=
  steps.foldl (fun s p => (Bot.update s p.1 p.2).1) b

/-! ## platformer: `Animation`, `Player`, `Game`
(src/platformer/game/src/lib.rs)

Textures are abstract resource identifiers (`ℕ`).  `current_frame` is a
`u32` and `keyframes.len()` a `usize`; both are embedded as `ℕ` with the
`as u32` cast written out as `% 2^32` and `u32` addition wrapping.  The
`%` by `keyframes.len() as u32` panics in Rust when that value is zero, so
`Animation::update` returns an `Option`. -/

namespace Platformer

structure KeyFrameTexture where
  texture : Option ℕ
deriving DecidableEq

structure Animation where
  name : String
  keyframes : List KeyFrameTexture
  current_frame : ℕ
  speed : ℚ
  t : ℚ
deriving DecidableEq

/-- `Animation::current_frame()` (the getter): `self.keyframes.get(self.current_frame as usize)`. -/
def Animation.currentFrame (a : Animation) : Option KeyFrameTexture :=
  a.keyframes.get? a.current_frame

/-- `Animation::update(dt)`: `t += speed * dt`; when `t >= 1.0`, `t` is
reset to `0.0` and `current_frame` becomes
`(current_frame + 1) % keyframes.len() as u32` — which is a
remainder-by-zero (a Rust panic, here `none`) when the keyframes list is
empty. -/
def Animation.update (a : Animation) (dt : ℚ) : Option Animation :=
  let t' := a.t + a.speed * dt
  if 1 ≤ t' then
    let len32 := a.keyframes.length % 2 ^ 32
    if len32 = 0 then
      none
    else
      some { a with
        t := 0
        current_frame := ((a.current_frame + 1) % 2 ^ 32) % len32 }
  else
    some { a with t := t' }

/-- A 2D scene node, reduced to what `Player::on_update` touches: its
specific kind (a 2D rigid body with a linear velocity, a rectangle sprite
with a texture, or anything else) and its local-transform scale. -/
inductive PNodeKind where
  | rigidBody2d (lin_vel : Vec2)
  | rectangle (texture : Option ℕ)
  | otherNode
deriving DecidableEq

structure PNode where
  kind : PNodeKind
  scale : Vec3
deriving DecidableEq

/-- The scene graph as a pool lookup: `try_get_mut` yields `none` for an
unassigned (`Handle::NONE`) or absent handle. -/
def PGraph : Type := ℕ → Option PNode

def PGraph.set (g : PGraph) (h : ℕ) (n : PNode) : PGraph :=
  fun m => if m = h then some n else g m

structure Player where
  sprite : ℕ
  move_left : Bool
  move_right : Bool
  jump : Bool
  animations : List Animation
  current_animation : ℕ
deriving DecidableEq

/-- `Player::type_uuid()`: `c5671d19-9f1a-4286-8486-add4ebaadaec` as a
128-bit number. -/
def Player.type_uuid : ℕ := 0xc5671d199f1a42868486add4ebaadaec

structure Game where
  scene : ℕ
deriving DecidableEq

/-- `Game::type_uuid()`: `cb358b1c-fc23-4c44-9e59-0a9671324196` as a
128-bit number. -/
def Game.type_uuid : ℕ := 0xcb358b1cfc234c449e590a9671324196

/-- `ScriptTrait::id` for `Player` — independent of the instance. -/
def Player.id (_p : Player) : ℕ := Player.type_uuid

/-- `ScriptTrait::plugin_uuid` for `Player` — independent of the instance. -/
def Player.plugin_uuid (_p : Player) : ℕ := Game.type_uuid

/-- `Plugin::on_register`: the script constructors added to the registry,
as (name, script type uuid) pairs.  The body is the single call
`script_constructors.add::<Game, Player, _>("Player")`. -/
def Game.on_register : List (String × ℕ) :=
  [("Player", Player.type_uuid)]

/-- The first block of `Player::on_update`: the
`cast_mut::<RigidBody>` branch — movement, animation index selection and
sprite mirroring.  A non-rigid-body node leaves everything untouched. -/
def Player.update_movement (p : Player) (node : PNode) (g : PGraph) :
    Player × PNode × PGraph :=
  match node.kind with
  | .rigidBody2d v =>
    let x_speed : ℚ := if p.move_left then 3 else if p.move_right then -3 else 0
    let p' := { p with current_animation := if x_speed ≠ 0 then 0 else 1 }
    let node' := { node with
      kind := PNodeKind.rigidBody2d ⟨x_speed, if p.jump then 4 else v.y⟩ }
    let g' :=
      match g p.sprite with
      | some sprite =>
        if x_speed ≠ 0 then
          PGraph.set g p.sprite { sprite with
            scale := ⟨copysign sprite.scale.x (-x_speed), sprite.scale.y,
                      sprite.scale.z⟩ }
        else g
      | none => g
    (p', node', g')
  | _ => (p, node, g)

/-- The second block of `Player::on_update`: the
`animations.get_mut(...)` branch — steps the selected animation and writes
its current keyframe's texture into the sprite when it is a `Rectangle`.
`none` embeds a panic escaping from `Animation::update`. -/
def Player.update_animation (p : Player) (node : PNode) (g : PGraph) (dt : ℚ) :
    Option (Player × PNode × PGraph) :=
  match p.animations.get? p.current_animation with
  | some anim =>
    match anim.update dt with
    | some anim' =>
      let p2 := { p with animations := p.animations.set p.current_animation anim' }
      let g2 :=
        match g p.sprite with
        | some sprite =>
          match sprite.kind with
          | .rectangle _ =>
            PGraph.set g p.sprite { sprite with
              kind := PNodeKind.rectangle (anim'.currentFrame.bind (fun k => k.texture)) }
          | _ => g
        | none => g
      some (p2, node, g2)
    | none => none
  | none => some (p, node, g)

/-- `Player::on_update(context)`.  Inputs are the script state, the node
the script is attached to (`context.node`), the scene graph and `dt`;
outputs the new script state, node and graph: first the rigid-body
movement block, then the animation block. -/
def Player.on_update (p : Player) (node : PNode) (g : PGraph) (dt : ℚ) :
    Option (Player × PNode × PGraph) :=
  let s := Player.update_movement p node g
  Player.update_animation s.1 s.2.1 s.2.2 dt

end Platformer

/-! ## Concrete states used by the witnesses and counterexamples -/

/-- A weapon that is ready to shoot. -/
def wEx : Weapon :=
  { model := 1, shot_point := 2, shot_timer := 0,
    recoil_offset := Vec3.zero, recoil_target_offset := Vec3.zero }

/-- A scene graph with every node at the origin. -/
def gEx : Graph3 := fun _ => Vec3.zero

/-- A camera controller in its initial state (as built by
`CameraController::new`). -/
def camEx : Rpg.CameraController :=
  { pivot := 1, hinge := 2, camera := 3, yaw := 0, pitch := 0 }

/-- A bot that is already following its target and sits exactly on it. -/
def botEx : BotState :=
  { position := Vec3.zero, rotation := Rot.someRotation 0,
    linVel := Vec3.zero, follow_target := true }

/-- A bot at the origin that is not yet following anything and is
currently falling (vertical velocity -1). -/
def botWEx : BotState :=
  { position := Vec3.zero, rotation := Rot.someRotation 3,
    linVel := ⟨0, -1, 0⟩, follow_target := false }

/-- An animation with one keyframe. -/
def animEx : Platformer.Animation :=
  { name := "run", keyframes := [{ texture := some 7 }],
    current_frame := 0, speed := 10, t := 0 }

/-- An animation whose keyframes list is empty (the `Default` state). -/
def animEmptyEx : Platformer.Animation :=
  { name := "Unnamed", keyframes := [], current_frame := 0, speed := 10, t := 0 }

/-- A platformer player with an unassigned sprite handle and no
animations. -/
def playerEx : Platformer.Player :=
  { sprite := 0, move_left := true, move_right := false, jump := false,
    animations := [], current_animation := 0 }

/-- A platformer player whose second animation (the idle one, selected
when standing still) has an empty keyframes list. -/
def playerBadAnimEx : Platformer.Player :=
  { sprite := 0, move_left := false, move_right := false, jump := false,
    animations := [animEx, animEmptyEx], current_animation := 0 }

/-- A 2D rigid body node at rest. -/
def nodeBodyEx : Platformer.PNode :=
  { kind := Platformer.PNodeKind.rigidBody2d ⟨0, 0⟩, scale := ⟨1, 1, 1⟩ }

/-- A node that is not a 2D rigid body. -/
def nodeOtherEx : Platformer.PNode :=
  { kind := Platformer.PNodeKind.otherNode, scale := ⟨1, 1, 1⟩ }

/-- An empty scene graph (`try_get_mut` fails on every handle). -/
def pgEx : Platformer.PGraph := fun _ => none

/-! ## Helper lemmas -/

theorem Weapon.update_shot_timer_eq (w : Weapon) (dt : ℚ) (g : Graph3) :
    (Weapon.update w dt g).1.shot_timer = fmax (w.shot_timer - dt) 0 := rfl

theorem Weapon.update_shot_timer_ge (w : Weapon) (dt : ℚ) (g : Graph3) :
    w.shot_timer - dt ≤ (Weapon.update w dt g).1.shot_timer := by
  rw [Weapon.update_shot_timer_eq]
  exact le_max_left _ _

theorem Weapon.updates_cons (w : Weapon) (g : Graph3) (d : ℚ) (ds : List ℚ) :
    Weapon.updates w g (d :: ds)
      = Weapon.updates (Weapon.update w d g).1 (Weapon.update w d g).2 ds := by
  simp [Weapon.updates]

/-- Across any sequence of updates the cool-down timer falls by at most the
sum of the `dt` arguments. -/
theorem Weapon.updates_shot_timer_ge (dts : List ℚ) (w : Weapon) (g : Graph3) :
    w.shot_timer - dts.sum ≤ (Weapon.updates w g dts).1.shot_timer := by
  induction dts generalizing w g with
  | nil => simp [Weapon.updates]
  | cons d ds ih =>
    rw [Weapon.updates_cons]
    have h1 := Weapon.update_shot_timer_ge w d g
    have h2 := ih (Weapon.update w d g).1 (Weapon.update w d g).2
    rw [List.sum_cons]
    linarith

theorem fclamp_range (x lo hi : ℚ) (h : lo ≤ hi) :
    lo ≤ fclamp x lo hi ∧ fclamp x lo hi ≤ hi := by
  unfold fclamp
  rcases lt_or_le x lo with h1 | h1
  · rw [if_pos h1]
    exact ⟨le_rfl, h⟩
  · rw [if_neg (not_lt.mpr h1)]
    rcases lt_or_le hi x with h2 | h2
    · rw [if_pos h2]
      exact ⟨h, le_rfl⟩
    · rw [if_neg (not_lt.mpr h2)]
      exact ⟨h1, h2⟩

theorem fminmax_range (x lo hi : ℚ) (h : lo ≤ hi) :
    lo ≤ fmin (fmax x lo) hi ∧ fmin (fmax x lo) hi ≤ hi := by
  unfold fmin fmax
  exact ⟨le_min (le_max_right x lo) h, min_le_right _ _⟩

theorem rad90_pos : (0 : ℚ) < rad90 := by norm_num [rad90]

/-- One `Tutorial1` event either clamps the pitch into ±90 or leaves it
unchanged. -/
theorem Tutorial1.t1_pitch_step (c : InputController) (e : GameEvent) :
    ((-90 ≤ (process_input_event c e).pitch
        ∧ (process_input_event c e).pitch ≤ 90)
      ∨ (process_input_event c e).pitch = c.pitch) := by
  cases e with
  | keyboard k pressed => cases k <;> simp [process_input_event]
  | mouseMotion dx dy =>
    left
    simpa [process_input_event] using
      fclamp_range (c.pitch + dy) (-90) 90 (by norm_num)
  | mouseInput l pr => simp [process_input_event]
  | otherEvent => simp [process_input_event]

/-- One `Tutorial2` event either clamps the pitch into ±90 or leaves it
unchanged. -/
theorem Tutorial2.t2_pitch_step (c : InputController) (e : GameEvent) :
    ((-90 ≤ (process_input_event c e).pitch
        ∧ (process_input_event c e).pitch ≤ 90)
      ∨ (process_input_event c e).pitch = c.pitch) := by
  cases e with
  | keyboard k pressed => cases k <;> simp [process_input_event]
  | mouseMotion dx dy =>
    left
    simpa [process_input_event] using
      fclamp_range (c.pitch + 0.5 * dy) (-90) 90 (by norm_num)
  | mouseInput l pr =>
    by_cases hl : l <;> simp [process_input_event, hl]
  | otherEvent => simp [process_input_event]

/-- One device event either clamps the camera pitch into ±90° (radians) or
leaves it unchanged. -/
theorem Rpg.cam_pitch_step (c : CameraController) (e : DeviceEvent) :
    ((-rad90 ≤ (c.handle_device_event e).pitch
        ∧ (c.handle_device_event e).pitch ≤ rad90)
      ∨ (c.handle_device_event e).pitch = c.pitch) := by
  cases e with
  | mouseMotion dx dy =>
    left
    simpa [CameraController.handle_device_event] using
      fminmax_range (c.pitch + dy * 0.015) (-rad90) rad90
        (by norm_num [rad90])
  | otherDeviceEvent => simp [CameraController.handle_device_event]

/-- One OS event either clamps the rpg player pitch into ±90° (radians) or
leaves it unchanged. -/
theorem RpgGame.rpg_pitch_step (p : Player) (e : GameEvent) (dt : ℚ) :
    ((-rad90 ≤ (p.on_os_event e dt).pitch
        ∧ (p.on_os_event e dt).pitch ≤ rad90)
      ∨ (p.on_os_event e dt).pitch = p.pitch) := by
  cases e with
  | keyboard k pressed => cases k <;> simp [Player.on_os_event]
  | mouseMotion dx dy =>
    left
    simpa [Player.on_os_event] using
      fclamp_range (p.pitch + dy * (0.2 * dt)) (-rad90) rad90
        (by norm_num [rad90])
  | mouseInput l pr => simp [Player.on_os_event]
  | otherEvent => simp [Player.on_os_event]

/-- Pitch range survives any sequence of `Tutorial1` events. -/
theorem Tutorial1.t1_pitch_events_range (es : List GameEvent) :
    ∀ c : InputController, -90 ≤ c.pitch → c.pitch ≤ 90 →
      -90 ≤ (process_events c es).pitch ∧ (process_events c es).pitch ≤ 90 := by
  induction es with
  | nil =>
    intro c h1 h2
    exact ⟨h1, h2⟩
  | cons e es ih =>
    intro c h1 h2
    have hcons : process_events c (e :: es) = process_events (process_input_event c e) es := by
      simp [process_events]
    rw [hcons]
    rcases t1_pitch_step c e with ⟨ha, hb⟩ | heq
    · exact ih _ ha hb
    · exact ih _ (by rw [heq]; exact h1) (by rw [heq]; exact h2)

/-- Pitch range survives any sequence of `Tutorial2` events. -/
theorem Tutorial2.t2_pitch_events_range (es : List GameEvent) :
    ∀ c : InputController, -90 ≤ c.pitch → c.pitch ≤ 90 →
      -90 ≤ (process_events c es).pitch ∧ (process_events c es).pitch ≤ 90 := by
  induction es with
  | nil =>
    intro c h1 h2
    exact ⟨h1, h2⟩
  | cons e es ih =>
    intro c h1 h2
    have hcons : process_events c (e :: es) = process_events (process_input_event c e) es := by
      simp [process_events]
    rw [hcons]
    rcases t2_pitch_step c e with ⟨ha, hb⟩ | heq
    · exact ih _ ha hb
    · exact ih _ (by rw [heq]; exact h1) (by rw [heq]; exact h2)

/-- Pitch range survives any sequence of camera device events. -/
theorem Rpg.cam_pitch_events_range (es : List DeviceEvent) :
    ∀ c : CameraController, -rad90 ≤ c.pitch → c.pitch ≤ rad90 →
      -rad90 ≤ (c.handle_device_events es).pitch
        ∧ (c.handle_device_events es).pitch ≤ rad90 := by
  induction es with
  | nil =>
    intro c h1 h2
    exact ⟨h1, h2⟩
  | cons e es ih =>
    intro c h1 h2
    have hcons : c.handle_device_events (e :: es)
        = (c.handle_device_event e).handle_device_events es := by
      simp [CameraController.handle_device_events]
    rw [hcons]
    rcases cam_pitch_step c e with ⟨ha, hb⟩ | heq
    · exact ih _ ha hb
    · exact ih _ (by rw [heq]; exact h1) (by rw [heq]; exact h2)

/-- Pitch range survives any sequence of rpg player OS events. -/
theorem RpgGame.rpg_pitch_events_range (es : List GameEvent) (dt : ℚ) :
    ∀ p : Player, -rad90 ≤ p.pitch → p.pitch ≤ rad90 →
      -rad90 ≤ (p.on_os_events es dt).pitch
        ∧ (p.on_os_events es dt).pitch ≤ rad90 := by
  induction es with
  | nil =>
    intro p h1 h2
    exact ⟨h1, h2⟩
  | cons e es ih =>
    intro p h1 h2
    have hcons : p.on_os_events (e :: es) dt
        = (p.on_os_event e dt).on_os_events es dt := by
      simp [Player.on_os_events]
    rw [hcons]
    rcases rpg_pitch_step p e dt with ⟨ha, hb⟩ | heq
    · exact ih _ ha hb
    · exact ih _ (by rw [heq]; exact h1) (by rw [heq]; exact h2)

/-- The `follow_target` flag after `Bot::update` is the source's
`if distance != 0.0 && distance < 1.5 { true } else { old }`. -/
theorem Bot.update_fst_follow (b : BotState) (target : Vec3) (dist : ℚ) :
    (Bot.update b target dist).1.follow_target
      = (if dist ≠ 0 ∧ dist < 1.5 then true else b.follow_target) := by
  simp only [Bot.update]
  split_ifs <;> rfl

/-- In the far regime (`follow_target` set, `distance > 0.6`) the bot both
turns toward the target and moves: full post-state characterization. -/
theorem Bot.update_move (b : BotState) (target : Vec3) (dist : ℚ)
    (hfol : (Bot.update b target dist).1.follow_target = true)
    (hgt : (0.6 : ℚ) < dist) :
    (Bot.update b target dist).1
      = { b with
          follow_target := true
          rotation := Rot.face_towards
            ⟨(Vec3.sub target b.position).x, 0, (Vec3.sub target b.position).z⟩ yAxis
          linVel := ⟨(Vec3.sub target b.position).x * (1 / dist) * 0.9, b.linVel.y,
                     (Vec3.sub target b.position).z * (1 / dist) * 0.9⟩ } := by
  have hne : dist ≠ 0 := by
    intro h
    rw [h] at hgt
    norm_num at hgt
  rw [Bot.update_fst_follow] at hfol
  simp only [Bot.update, hfol, hne]
  simp [hgt, hne, Vec3.scale, Vec3.sub]

/-- In the near regime (`follow_target` set, `0 < distance ≤ 0.6`) the bot
only turns: full post-state characterization. -/
theorem Bot.update_rotate_only (b : BotState) (target : Vec3) (dist : ℚ)
    (hfol : (Bot.update b target dist).1.follow_target = true)
    (hne : dist ≠ 0) (hle : ¬ (0.6 : ℚ) < dist) :
    (Bot.update b target dist).1
      = { b with
          follow_target := true
          rotation := Rot.face_towards
            ⟨(Vec3.sub target b.position).x, 0, (Vec3.sub target b.position).z⟩ yAxis } := by
  rw [Bot.update_fst_follow] at hfol
  simp only [Bot.update, hfol, hne]
  simp [hle, hne]

/-- At distance exactly 0 the update leaves the whole bot state unchanged
(in particular its rotation and velocity). -/
theorem Bot.update_dist_zero (b : BotState) (target : Vec3) :
    (Bot.update b target 0).1 = b := by
  simp [Bot.update]

/-- The animation-machine input handed over by `Bot::update`. -/
theorem Bot.update_snd (b : BotState) (target : Vec3) (dist : ℚ) :
    (Bot.update b target dist).2
      = { walk := (Bot.update b target dist).1.follow_target && decide ((0.6 : ℚ) < dist),
          attack := decide (dist < (0.6 : ℚ)) } := by
  rw [Bot.update_fst_follow]
  simp only [Bot.update]

/-- A single update never clears `follow_target`. -/
theorem Bot.update_follow_mono (b : BotState) (target : Vec3) (dist : ℚ)
    (h : b.follow_target = true) :
    (Bot.update b target dist).1.follow_target = true := by
  rw [Bot.update_fst_follow]
  split_ifs <;> simp [h]

/-- No later sequence of updates clears `follow_target` either. -/
theorem Bot.updates_follow_mono (steps : List (Vec3 × ℚ)) :
    ∀ b : BotState, b.follow_target = true →
      (Bot.updates b steps).follow_target = true := by
  induction steps with
  | nil =>
    intro b h
    exact h
  | cons s ss ih =>
    intro b h
    have hcons : Bot.updates b (s :: ss) = Bot.updates (Bot.update b s.1 s.2).1 ss := by
      simp [Bot.updates]
    rw [hcons]
    exact ih _ (Bot.update_follow_mono b s.1 s.2 h)

/-- `Animation::update` succeeds whenever the keyframes list is non-empty
(and of `u32`-representable length). -/
theorem Platformer.Animation.update_isSome (a : Animation) (dt : ℚ)
    (h0 : a.keyframes ≠ []) (hlen : a.keyframes.length < 2 ^ 32) :
    ∃ a', Animation.update a dt = some a' := by
  have hlenpos : 0 < a.keyframes.length := List.length_pos.mpr h0
  have h32 : a.keyframes.length % 2 ^ 32 = a.keyframes.length :=
    Nat.mod_eq_of_lt hlen
  have hne : a.keyframes.length % 2 ^ 32 ≠ 0 := by
    rw [h32]
    exact Nat.pos_iff_ne_zero.mp hlenpos
  by_cases ht : 1 ≤ a.t + a.speed * dt
  · exact ⟨{ a with
        t := 0
        current_frame := ((a.current_frame + 1) % 2 ^ 32)
          % (a.keyframes.length % 2 ^ 32) },
      by simp only [Animation.update, if_pos ht, if_neg hne]⟩
  · exact ⟨{ a with t := a.t + a.speed * dt },
      by simp only [Animation.update, if_neg ht]⟩

/-- On a 2D rigid body, the movement block's effect on the script state
and the node. -/
theorem Platformer.Player.update_movement_rigid (p : Player) (node : PNode)
    (g : PGraph) (v : Vec2) (hk : node.kind = PNodeKind.rigidBody2d v) :
    (Player.update_movement p node g).1
      = { p with current_animation :=
            if (if p.move_left then (3 : ℚ) else if p.move_right then -3 else 0) ≠ 0
            then 0 else 1 }
    ∧ (Player.update_movement p node g).2.1
      = { node with kind := PNodeKind.rigidBody2d ⟨(if p.move_left then
            (3 : ℚ) else if p.move_right then -3 else 0),
            (if p.jump then 4 else v.y)⟩ } := by
  constructor <;> simp only [Player.update_movement, hk]

/-- On anything that is not a 2D rigid body, the movement block does
nothing. -/
theorem Platformer.Player.update_movement_other (p : Player) (node : PNode)
    (g : PGraph) (hk : ∀ v : Vec2, node.kind ≠ PNodeKind.rigidBody2d v) :
    Player.update_movement p node g = (p, node, g) := by
  cases hknd : node.kind with
  | rigidBody2d v => exact absurd hknd (hk v)
  | rectangle tex => simp only [Player.update_movement, hknd]
  | otherNode => simp only [Player.update_movement, hknd]

/-- The movement block never touches the sprite handle or the animations
list of the script state. -/
theorem Platformer.Player.update_movement_keeps (p : Player) (node : PNode)
    (g : PGraph) :
    (Player.update_movement p node g).1.sprite = p.sprite
    ∧ (Player.update_movement p node g).1.animations = p.animations := by
  cases hknd : node.kind <;> constructor <;>
    simp only [Player.update_movement, hknd]

/-- When the sprite handle does not resolve, the movement block leaves the
graph unchanged (no mirroring). -/
theorem Platformer.Player.update_movement_graph_none (p : Player)
    (node : PNode) (g : PGraph) (hs : g p.sprite = none) :
    (Player.update_movement p node g).2.2 = g := by
  cases hknd : node.kind <;> simp only [Player.update_movement, hknd, hs]

/-- Whenever the animation block completes, it returns the node unchanged
and does not touch `current_animation` or the sprite handle. -/
theorem Platformer.Player.update_animation_some (p : Player) (node : PNode)
    (g : PGraph) (dt : ℚ) (out : Player × PNode × PGraph)
    (h : Player.update_animation p node g dt = some out) :
    out.2.1 = node
    ∧ out.1.current_animation = p.current_animation
    ∧ out.1.sprite = p.sprite := by
  cases hga : p.animations.get? p.current_animation with
  | none =>
    simp only [Player.update_animation, hga] at h
    cases h
    exact ⟨rfl, rfl, rfl⟩
  | some anim =>
    cases hau : anim.update dt with
    | none =>
      simp only [Player.update_animation, hga, hau] at h
      exact Option.noConfusion h
    | some anim' =>
      simp only [Player.update_animation, hga, hau] at h
      cases h
      exact ⟨rfl, rfl, rfl⟩

/-- When the sprite handle does not resolve, a completing animation block
leaves the graph unchanged (no texture assignment). -/
theorem Platformer.Player.update_animation_graph_none (p : Player)
    (node : PNode) (g : PGraph) (dt : ℚ) (out : Player × PNode × PGraph)
    (hs : g p.sprite = none)
    (h : Player.update_animation p node g dt = some out) :
    out.2.2 = g := by
  cases hga : p.animations.get? p.current_animation with
  | none =>
    simp only [Player.update_animation, hga] at h
    cases h
    rfl
  | some anim =>
    cases hau : anim.update dt with
    | none =>
      simp only [Player.update_animation, hga, hau] at h
      exact Option.noConfusion h
    | some anim' =>
      simp only [Player.update_animation, hga, hau, hs] at h
      cases h
      rfl

/-- The animation block completes whenever every animation in the list has
a non-empty keyframes list of `u32`-representable length. -/
theorem Platformer.Player.update_animation_total (p : Player) (node : PNode)
    (g : PGraph) (dt : ℚ)
    (hgood : ∀ a ∈ p.animations, a.keyframes ≠ [] ∧ a.keyframes.length < 2 ^ 32) :
    ∃ out, Player.update_animation p node g dt = some out := by
  cases hga : p.animations.get? p.current_animation with
  | none =>
    exact ⟨(p, node, g), by simp only [Player.update_animation, hga]⟩
  | some anim =>
    obtain ⟨h1, h2⟩ := hgood anim (List.get?_mem hga)
    obtain ⟨a', ha'⟩ := Animation.update_isSome anim dt h1 h2
    simp only [Player.update_animation, hga, ha']
    exact ⟨_, rfl⟩

/-! ## Claim theorems -/

/-- Claim C1: `Weapon::shoot` sets `shot_timer` to 0.1 and makes
`can_shoot()` false; `Weapon::update(dt, graph)` with `dt ≥ 0` decreases
`shot_timer` by `dt` but never below 0; `can_shoot()` holds exactly when
`shot_timer ≤ 0`; `Game::shoot_weapon` performs the ray cast and spawns
effects only when `can_shoot()` holds; hence any two effective shots are
separated by updates whose `dt` values sum to at least 0.1. -/
theorem C1_weapon_cooldown :
    ∀ (w : Weapon) (g : Graph3),
      (Weapon.shoot w).shot_timer = 0.1
      ∧ (Weapon.shoot w).can_shoot = false
      ∧ (∀ dt : ℚ, 0 ≤ dt →
          (0 ≤ w.shot_timer - dt →
            (Weapon.update w dt g).1.shot_timer = w.shot_timer - dt)
          ∧ (w.shot_timer - dt < 0 → (Weapon.update w dt g).1.shot_timer = 0)
          ∧ 0 ≤ (Weapon.update w dt g).1.shot_timer)
      ∧ (w.can_shoot = true ↔ w.shot_timer ≤ 0)
      ∧ (∀ o d ints pc, w.can_shoot = false →
          Game.shoot_weapon w o d ints pc = (w, []))
      ∧ (∀ o d ints pc, (Game.shoot_weapon w o d ints pc).2 ≠ [] →
          w.can_shoot = true)
      ∧ (∀ dts : List ℚ, (∀ x ∈ dts, 0 ≤ x) →
          (Weapon.updates (Weapon.shoot w) g dts).1.can_shoot = true →
          0.1 ≤ dts.sum) := by
  intro w g
  refine ⟨rfl, ?_, ?_, ?_, ?_, ?_, ?_⟩
  · simp [Weapon.can_shoot, Weapon.shoot]
    norm_num
  · intro dt _
    refine ⟨?_, ?_, ?_⟩
    · intro h
      rw [Weapon.update_shot_timer_eq]
      exact max_eq_left h
    · intro h
      rw [Weapon.update_shot_timer_eq]
      exact max_eq_right (le_of_lt h)
    · rw [Weapon.update_shot_timer_eq]
      exact le_max_right _ _
  · simp [Weapon.can_shoot]
  · intro o d ints pc h
    simp [Game.shoot_weapon, h]
  · intro o d ints pc h
    cases hcs : w.can_shoot with
    | true => rfl
    | false =>
      exfalso
      apply h
      simp [Game.shoot_weapon, hcs]
  · intro dts hpos hcs
    have hge := Weapon.updates_shot_timer_ge dts (Weapon.shoot w) g
    have hst : (Weapon.shoot w).shot_timer = 0.1 := rfl
    have hle : (Weapon.updates (Weapon.shoot w) g dts).1.shot_timer ≤ 0 := by
      have := of_decide_eq_true hcs
      exact this
    rw [hst] at hge
    linarith

/-- Witness for C1: from a ready weapon, one shot followed by a single
update with `dt = 0.2 ≥ 0` makes `can_shoot` true again, and the theorem
yields `0.1 ≤ 0.2`, the sum of the `dt` values. -/
theorem C1_weapon_cooldown_witness :
    (∀ x ∈ ([0.2] : List ℚ), (0:ℚ) ≤ x)
    ∧ (Weapon.updates (Weapon.shoot wEx) gEx [0.2]).1.can_shoot = true
    ∧ (0.1 : ℚ) ≤ ([0.2] : List ℚ).sum := by
  have h1 : ∀ x ∈ ([0.2] : List ℚ), (0:ℚ) ≤ x := by
    intro x hx
    simp at hx
    rw [hx]
    norm_num
  have h2 : (Weapon.updates (Weapon.shoot wEx) gEx [0.2]).1.can_shoot = true := by
    simp [Weapon.updates, Weapon.update, Weapon.shoot, Weapon.can_shoot, wEx, fmax]
    norm_num
  exact ⟨h1, h2, (C1_weapon_cooldown wEx gEx).2.2.2.2.2.2 [0.2] h1 h2⟩

/-- Claim C7: `Weapon::shoot` sets `recoil_target_offset` to
(0, 0, -0.025); every `Weapon::update` moves `recoil_offset` toward the
target by the `follow` easing with speed 0.5 (so the gap halves, and its
squared norm quarters, each step), writes the new offset into the weapon
model's local position, and resets the target to (0, 0, 0) exactly when
the distance between offset and target drops below 0.001. -/
theorem C7_weapon_recoil_easing :
    ∀ (w : Weapon) (dt : ℚ) (g : Graph3),
      (Weapon.shoot w).recoil_target_offset = ⟨0, 0, -0.025⟩
      ∧ (Weapon.update w dt g).1.recoil_offset
          = Vec3.follow w.recoil_offset w.recoil_target_offset 0.5
      ∧ (Weapon.update w dt g).2 w.model
          = Vec3.follow w.recoil_offset w.recoil_target_offset 0.5
      ∧ Vec3.sub (Vec3.follow w.recoil_offset w.recoil_target_offset 0.5)
            w.recoil_target_offset
          = Vec3.scale (Vec3.sub w.recoil_offset w.recoil_target_offset) 0.5
      ∧ Vec3.normSq (Vec3.sub (Vec3.follow w.recoil_offset w.recoil_target_offset 0.5)
            w.recoil_target_offset)
          = Vec3.normSq (Vec3.sub w.recoil_offset w.recoil_target_offset) / 4
      ∧ (Vec3.normSq (Vec3.sub (Vec3.follow w.recoil_offset w.recoil_target_offset 0.5)
            w.recoil_target_offset) < 0.001 ^ 2 →
          (Weapon.update w dt g).1.recoil_target_offset = Vec3.zero)
      ∧ (¬ Vec3.normSq (Vec3.sub (Vec3.follow w.recoil_offset w.recoil_target_offset 0.5)
            w.recoil_target_offset) < 0.001 ^ 2 →
          (Weapon.update w dt g).1.recoil_target_offset = w.recoil_target_offset) := by
  intro w dt g
  refine ⟨rfl, rfl, ?_, ?_, ?_, ?_, ?_⟩
  · simp [Weapon.update, Graph3.setPosition]
  · simp [Vec3.follow, Vec3.add, Vec3.sub, Vec3.scale, Vec3.mk.injEq]
    refine ⟨by ring, by ring, by ring⟩
  · simp [Vec3.follow, Vec3.add, Vec3.sub, Vec3.scale, Vec3.normSq]
    ring
  · intro h
    simp only [Weapon.update, h, if_pos]
  · intro h
    simp only [Weapon.update, h, if_neg, if_false]

/-- Witness for C7: with both offsets at zero the post-follow gap has
squared norm 0 < 0.001², so the update resets the target offset to zero
(it already is zero), via the theorem's reset conjunct. -/
theorem C7_weapon_recoil_easing_witness :
    Vec3.normSq (Vec3.sub (Vec3.follow wEx.recoil_offset wEx.recoil_target_offset 0.5)
        wEx.recoil_target_offset) < 0.001 ^ 2
    ∧ (Weapon.update wEx 0 gEx).1.recoil_target_offset = Vec3.zero := by
  have h : Vec3.normSq (Vec3.sub (Vec3.follow wEx.recoil_offset wEx.recoil_target_offset 0.5)
      wEx.recoil_target_offset) < 0.001 ^ 2 := by
    simp [wEx, Vec3.follow, Vec3.add, Vec3.sub, Vec3.scale, Vec3.normSq, Vec3.zero]
    norm_num
  exact ⟨h, (C7_weapon_recoil_easing wEx 0 gEx).2.2.2.2.2.1 h⟩

/-- Claim C2: every mouse-motion event processed by any of the
player/camera controllers leaves the pitch clamped into [-90°, 90°]
(stored in radians by the rpg controllers, in degrees by the shooter
tutorials), and "pitch lies in that range" is an invariant preserved by
every input-handling operation, for every sequence of mouse deltas. -/
theorem C2_pitch_clamped :
    (∀ (c : Rpg.CameraController) (dx dy : ℚ),
        -rad90 ≤ (c.handle_device_event (.mouseMotion dx dy)).pitch
        ∧ (c.handle_device_event (.mouseMotion dx dy)).pitch ≤ rad90)
    ∧ (∀ (p : RpgGame.Player) (dx dy dt : ℚ),
        -rad90 ≤ (p.on_os_event (.mouseMotion dx dy) dt).pitch
        ∧ (p.on_os_event (.mouseMotion dx dy) dt).pitch ≤ rad90)
    ∧ (∀ (c : Tutorial2.InputController) (dx dy : ℚ),
        -90 ≤ (Tutorial2.process_input_event c (.mouseMotion dx dy)).pitch
        ∧ (Tutorial2.process_input_event c (.mouseMotion dx dy)).pitch ≤ 90)
    ∧ (∀ (c : Tutorial1.InputController) (dx dy : ℚ),
        -90 ≤ (Tutorial1.process_input_event c (.mouseMotion dx dy)).pitch
        ∧ (Tutorial1.process_input_event c (.mouseMotion dx dy)).pitch ≤ 90)
    ∧ (∀ (c : Rpg.CameraController) (es : List DeviceEvent),
        -rad90 ≤ c.pitch → c.pitch ≤ rad90 →
        -rad90 ≤ (c.handle_device_events es).pitch
        ∧ (c.handle_device_events es).pitch ≤ rad90)
    ∧ (∀ (p : RpgGame.Player) (es : List GameEvent) (dt : ℚ),
        -rad90 ≤ p.pitch → p.pitch ≤ rad90 →
        -rad90 ≤ (p.on_os_events es dt).pitch
        ∧ (p.on_os_events es dt).pitch ≤ rad90)
    ∧ (∀ (c : Tutorial2.InputController) (es : List GameEvent),
        -90 ≤ c.pitch → c.pitch ≤ 90 →
        -90 ≤ (Tutorial2.process_events c es).pitch
        ∧ (Tutorial2.process_events c es).pitch ≤ 90)
    ∧ (∀ (c : Tutorial1.InputController) (es : List GameEvent),
        -90 ≤ c.pitch → c.pitch ≤ 90 →
        -90 ≤ (Tutorial1.process_events c es).pitch
        ∧ (Tutorial1.process_events c es).pitch ≤ 90) := by
  refine ⟨?_, ?_, ?_, ?_, ?_, ?_, ?_, ?_⟩
  · intro c dx dy
    simpa [Rpg.CameraController.handle_device_event] using
      fminmax_range (c.pitch + dy * 0.015) (-rad90) rad90 (by norm_num [rad90])
  · intro p dx dy dt
    simpa [RpgGame.Player.on_os_event] using
      fclamp_range (p.pitch + dy * (0.2 * dt)) (-rad90) rad90 (by norm_num [rad90])
  · intro c dx dy
    simpa [Tutorial2.process_input_event] using
      fclamp_range (c.pitch + 0.5 * dy) (-90) 90 (by norm_num)
  · intro c dx dy
    simpa [Tutorial1.process_input_event] using
      fclamp_range (c.pitch + dy) (-90) 90 (by norm_num)
  · intro c es h1 h2
    exact Rpg.cam_pitch_events_range es c h1 h2
  · intro p es dt h1 h2
    exact RpgGame.rpg_pitch_events_range es dt p h1 h2
  · intro c es h1 h2
    exact Tutorial2.t2_pitch_events_range es c h1 h2
  · intro c es h1 h2
    exact Tutorial1.t1_pitch_events_range es c h1 h2

/-- Witness for C2: the fresh camera controller has pitch 0 inside the
range, and after a huge mouse delta the pitch is still inside
[-rad90, rad90], via the sequence conjunct of the theorem. -/
theorem C2_pitch_clamped_witness :
    -rad90 ≤ camEx.pitch ∧ camEx.pitch ≤ rad90
    ∧ (-rad90 ≤ (camEx.handle_device_events
          [DeviceEvent.mouseMotion 1000000 1000000]).pitch
        ∧ (camEx.handle_device_events
          [DeviceEvent.mouseMotion 1000000 1000000]).pitch ≤ rad90) := by
  have h1 : -rad90 ≤ camEx.pitch := by norm_num [camEx, rad90]
  have h2 : camEx.pitch ≤ rad90 := by norm_num [camEx, rad90]
  exact ⟨h1, h2, C2_pitch_clamped.2.2.2.2.1 camEx
    [DeviceEvent.mouseMotion 1000000 1000000] h1 h2⟩

/-- Counterexample to claim C3 as stated: there is no finite bound that the
camera controller's yaw respects across all mouse-motion events — the yaw
is not clamped at all. -/
theorem C3_yaw_clamped_counterexample :
    ¬ ∃ B : ℚ, ∀ dx dy : ℚ,
      |(camEx.handle_device_event (.mouseMotion dx dy)).yaw| ≤ B := by
  rintro ⟨B, hB⟩
  have h0 := hB 0 0
  have h0' : (0 : ℚ) ≤ B := by
    have : (camEx.handle_device_event (.mouseMotion 0 0)).yaw = 0 := by
      simp [camEx, Rpg.CameraController.handle_device_event]
    rw [this] at h0
    simpa using h0
  have h1 := hB (-(B + 1) * (200 / 3)) 0
  have hyaw : (camEx.handle_device_event
      (.mouseMotion (-(B + 1) * (200 / 3)) 0)).yaw = B + 1 := by
    simp [camEx, Rpg.CameraController.handle_device_event]
    norm_num
    ring
  rw [hyaw] at h1
  rw [abs_of_nonneg (by linarith)] at h1
  linarith

/-- Claim C3, amended: the controllers do not clamp the yaw at all — every
mouse-motion event updates it by subtracting the x-delta times the
controller's sensitivity, so for every candidate bound a single
mouse-motion event drives |yaw| beyond it (only the pitch is clamped). -/
theorem C3_yaw_unbounded_amended :
    (∀ (c : Rpg.CameraController) (dx dy : ℚ),
        (c.handle_device_event (.mouseMotion dx dy)).yaw = c.yaw - dx * 0.015)
    ∧ (∀ (p : RpgGame.Player) (dx dy dt : ℚ),
        (p.on_os_event (.mouseMotion dx dy) dt).yaw = p.yaw - dx * (0.2 * dt))
    ∧ (∀ (c : Tutorial2.InputController) (dx dy : ℚ),
        (Tutorial2.process_input_event c (.mouseMotion dx dy)).yaw
          = c.yaw - 0.5 * dx)
    ∧ (∀ (c : Tutorial1.InputController) (dx dy : ℚ),
        (Tutorial1.process_input_event c (.mouseMotion dx dy)).yaw = c.yaw - dx)
    ∧ (∀ B : ℚ, ∃ dx : ℚ,
        B < |(camEx.handle_device_event (.mouseMotion dx 0)).yaw|) := by
  refine ⟨fun c dx dy => rfl, fun p dx dy dt => rfl, fun c dx dy => rfl,
    fun c dx dy => rfl, ?_⟩
  intro B
  refine ⟨-(|B| + 1) * (200 / 3), ?_⟩
  have hyaw : (camEx.handle_device_event
      (.mouseMotion (-(|B| + 1) * (200 / 3)) 0)).yaw = |B| + 1 := by
    simp [camEx, Rpg.CameraController.handle_device_event]
    norm_num
    ring
  rw [hyaw]
  have habs : (0 : ℚ) ≤ |B| := abs_nonneg B
  rw [abs_of_nonneg (by linarith)]
  have : B ≤ |B| := le_abs_self B
  linarith

/-- Counterexample to claim C4 as stated: with `follow_target` already set
and the target exactly at the bot's position (`distance = 0 ≤ 0.6`), the
claim's near-regime clause says the facing rotation is updated, but
`Bot::update` (whose inner branch requires `distance != 0.0`) leaves the
whole state — in particular the rotation — untouched: it is not a
`face_towards` value at all. -/
theorem C4_bot_ai_counterexample :
    botEx.follow_target = true
    ∧ (0 : ℚ) ≤ 0
    ∧ (0 : ℚ) * 0 = Vec3.normSq (Vec3.sub Vec3.zero botEx.position)
    ∧ (0 : ℚ) ≤ 0.6
    ∧ (Bot.update botEx Vec3.zero 0).1.rotation = botEx.rotation
    ∧ ¬ ∃ d u : Vec3, (Bot.update botEx Vec3.zero 0).1.rotation
        = Rot.face_towards d u := by
  refine ⟨rfl, le_rfl, ?_, by norm_num, ?_, ?_⟩
  · norm_num [botEx, Vec3.sub, Vec3.normSq, Vec3.zero]
  · rw [Bot.update_dist_zero]
  · rintro ⟨d, u, h⟩
    rw [Bot.update_dist_zero] at h
    simp [botEx] at h

/-- Claim C4, amended: the near-regime clause holds for `0 < distance`
(at distance exactly 0 the update is a no-op); everything else is as
claimed.  With `distance ≥ 0` constrained by
`distance² = ‖target - position‖²`: `follow_target` is set when
`0 < distance < 1.5` and never cleared, in this or any later update; with
`follow_target` set and `distance > 0.6` the velocity becomes the
direction to the target normalized and scaled by 0.9 in the XZ plane with
the vertical component preserved (and the bot faces the target); with
`follow_target` set and `0 < distance ≤ 0.6` only the facing rotation is
updated; and the machine input is `walk = follow_target && distance > 0.6`,
`attack = distance < 0.6`. -/
theorem C4_bot_ai_amended :
    ∀ (b : BotState) (target : Vec3) (dist : ℚ),
      0 ≤ dist → dist * dist = Vec3.normSq (Vec3.sub target b.position) →
      ((0 < dist → dist < 1.5 → (Bot.update b target dist).1.follow_target = true)
      ∧ (b.follow_target = true → (Bot.update b target dist).1.follow_target = true)
      ∧ (∀ steps : List (Vec3 × ℚ), b.follow_target = true →
          (Bot.updates b steps).follow_target = true)
      ∧ ((Bot.update b target dist).1.follow_target = true → 0.6 < dist →
          (Bot.update b target dist).1.linVel
            = ⟨(Vec3.sub target b.position).x * (1 / dist) * 0.9, b.linVel.y,
               (Vec3.sub target b.position).z * (1 / dist) * 0.9⟩
          ∧ (Bot.update b target dist).1.rotation
            = Rot.face_towards ⟨(Vec3.sub target b.position).x, 0,
                (Vec3.sub target b.position).z⟩ yAxis)
      ∧ ((Bot.update b target dist).1.follow_target = true → 0 < dist →
          dist ≤ 0.6 →
          (Bot.update b target dist).1.linVel = b.linVel
          ∧ (Bot.update b target dist).1.rotation
            = Rot.face_towards ⟨(Vec3.sub target b.position).x, 0,
                (Vec3.sub target b.position).z⟩ yAxis)
      ∧ ((Bot.update b target dist).2.walk
          = ((Bot.update b target dist).1.follow_target && decide (0.6 < dist)))
      ∧ ((Bot.update b target dist).2.attack = decide (dist < 0.6))) := by
  intro b target dist _ _
  refine ⟨?_, ?_, ?_, ?_, ?_, ?_, ?_⟩
  · intro hpos hlt
    rw [Bot.update_fst_follow, if_pos ⟨hpos.ne', hlt⟩]
  · exact Bot.update_follow_mono b target dist
  · intro steps h
    exact Bot.updates_follow_mono steps b h
  · intro hfol hgt
    rw [Bot.update_move b target dist hfol hgt]
    exact ⟨rfl, rfl⟩
  · intro hfol hpos hle
    rw [Bot.update_rotate_only b target dist hfol hpos.ne' (not_lt.mpr hle)]
    exact ⟨rfl, rfl⟩
  · rw [Bot.update_snd]
  · rw [Bot.update_snd]

/-- Witness for C4: a bot at the origin that is not yet following, with a
target at distance exactly 1 — it starts following (0 < 1 < 1.5) and,
being farther than 0.6, moves with velocity (0.9, old y, 0). -/
theorem C4_bot_ai_amended_witness :
    (0 : ℚ) ≤ 1
    ∧ (1 : ℚ) * 1 = Vec3.normSq (Vec3.sub ⟨1, 0, 0⟩ botWEx.position)
    ∧ (Bot.update botWEx ⟨1, 0, 0⟩ 1).1.follow_target = true
    ∧ (Bot.update botWEx ⟨1, 0, 0⟩ 1).1.linVel = ⟨0.9, -1, 0⟩ := by
  have hd : (1 : ℚ) * 1 = Vec3.normSq (Vec3.sub ⟨1, 0, 0⟩ botWEx.position) := by
    norm_num [botWEx, Vec3.sub, Vec3.normSq, Vec3.zero]
  have h := C4_bot_ai_amended botWEx ⟨1, 0, 0⟩ 1 (by norm_num) hd
  have hfol := h.1 (by norm_num) (by norm_num)
  have hmove := h.2.2.2.1 hfol (by norm_num)
  refine ⟨by norm_num, hd, hfol, ?_⟩
  rw [hmove.1]
  norm_num [botWEx, Vec3.sub, Vec3.zero]

/-- Claim C5: for an `Animation` with a non-empty keyframes list (of
`u32`-representable length, with a valid `u32` frame index),
`update(dt)` adds `speed * dt` to `t`; when the new `t` reaches 1.0 it
resets `t` to 0 and steps `current_frame` to
`(current_frame + 1) % keyframes.len()`, which is strictly below the
number of keyframes; and the `current_frame()` getter returns the keyframe
at index `current_frame`, or `None` when that index is out of bounds. -/
theorem C5_animation_stepping :
    ∀ (a : Platformer.Animation) (dt : ℚ),
      a.keyframes ≠ [] → a.keyframes.length < 2 ^ 32 →
      a.current_frame + 1 < 2 ^ 32 →
      ((1 ≤ a.t + a.speed * dt →
          Platformer.Animation.update a dt
            = some { a with
                t := 0
                current_frame := (a.current_frame + 1) % a.keyframes.length }
          ∧ (a.current_frame + 1) % a.keyframes.length < a.keyframes.length)
      ∧ (a.t + a.speed * dt < 1 →
          Platformer.Animation.update a dt = some { a with t := a.t + a.speed * dt })
      ∧ (a.current_frame < a.keyframes.length →
          ∃ k, Platformer.Animation.currentFrame a = some k
            ∧ a.keyframes.get? a.current_frame = some k)
      ∧ (a.keyframes.length ≤ a.current_frame →
          Platformer.Animation.currentFrame a = none)) := by
  intro a dt h0 hlen hcf
  have hlenpos : 0 < a.keyframes.length := List.length_pos.mpr h0
  have h32 : a.keyframes.length % 2 ^ 32 = a.keyframes.length :=
    Nat.mod_eq_of_lt hlen
  have hcf32 : (a.current_frame + 1) % 2 ^ 32 = a.current_frame + 1 :=
    Nat.mod_eq_of_lt hcf
  refine ⟨?_, ?_, ?_, ?_⟩
  · intro ht
    constructor
    · simp only [Platformer.Animation.update, if_pos ht, h32, hcf32,
        Nat.pos_iff_ne_zero.mp hlenpos, if_neg]
      simp
    · exact Nat.mod_lt _ hlenpos
  · intro ht
    simp only [Platformer.Animation.update, if_neg (not_le.mpr ht)]
  · intro hlt
    exact ⟨a.keyframes.get ⟨a.current_frame, hlt⟩, List.get?_eq_get hlt,
      List.get?_eq_get hlt⟩
  · intro hge
    exact List.get?_eq_none.mpr hge

/-- Witness for C5: the one-keyframe running animation at `t = 0` with
`speed = 10` and `dt = 0.1` advances: `t` becomes 1, is reset to 0, and
the frame steps to `(0 + 1) % 1 = 0 < 1`. -/
theorem C5_animation_stepping_witness :
    animEx.keyframes ≠ [] ∧ animEx.keyframes.length < 2 ^ 32
    ∧ animEx.current_frame + 1 < 2 ^ 32
    ∧ (1 : ℚ) ≤ animEx.t + animEx.speed * 0.1
    ∧ Platformer.Animation.update animEx 0.1
        = some { animEx with
            t := 0
            current_frame := (animEx.current_frame + 1) % animEx.keyframes.length }
    ∧ (animEx.current_frame + 1) % animEx.keyframes.length
        < animEx.keyframes.length := by
  have h1 : animEx.keyframes ≠ [] := by simp [animEx]
  have h2 : animEx.keyframes.length < 2 ^ 32 := by norm_num [animEx]
  have h3 : animEx.current_frame + 1 < 2 ^ 32 := by norm_num [animEx]
  have h4 : (1 : ℚ) ≤ animEx.t + animEx.speed * 0.1 := by norm_num [animEx]
  have h := (C5_animation_stepping animEx 0.1 h1 h2 h3).1 h4
  exact ⟨h1, h2, h3, h4, h.1, h.2⟩

/-- Claim C6: `Animation::update` is not total on empty animations — when
the keyframes list is empty, any `dt` that pushes `t` to 1.0 (for example
`dt ≥ 1/speed` from `t = 0` with positive speed) reaches the
remainder-by-zero `(current_frame + 1) % 0`, a Rust panic (`none` here);
with a non-empty keyframes list the error branch is unreachable; and the
`current_frame()` getter is total for every state, returning an `Option`
that is `some` exactly on in-bounds indices. -/
theorem C6_animation_update_not_total_on_empty :
    ∀ (a : Platformer.Animation) (dt : ℚ),
      (a.keyframes = [] → 1 ≤ a.t + a.speed * dt →
        Platformer.Animation.update a dt = none)
      ∧ (a.keyframes = [] → a.t = 0 → 0 < a.speed → 1 / a.speed ≤ dt →
        Platformer.Animation.update a dt = none)
      ∧ (a.keyframes ≠ [] → a.keyframes.length < 2 ^ 32 →
        ∃ a', Platformer.Animation.update a dt = some a')
      ∧ ((Platformer.Animation.currentFrame a).isSome
          ↔ a.current_frame < a.keyframes.length) := by
  intro a dt
  have hempty : a.keyframes = [] → 1 ≤ a.t + a.speed * dt →
      Platformer.Animation.update a dt = none := by
    intro h0 ht
    simp only [Platformer.Animation.update, if_pos ht, h0, List.length_nil,
      Nat.zero_mod, if_pos rfl]
    simp
  refine ⟨hempty, ?_, ?_, ?_⟩
  · intro h0 ht0 hsp hdt
    apply hempty h0
    have h1 : a.speed * (1 / a.speed) ≤ a.speed * dt :=
      mul_le_mul_of_nonneg_left hdt (le_of_lt hsp)
    rw [mul_one_div_cancel (ne_of_gt hsp)] at h1
    rw [ht0]
    linarith
  · intro h0 hlen
    have hlenpos : 0 < a.keyframes.length := List.length_pos.mpr h0
    have h32 : a.keyframes.length % 2 ^ 32 = a.keyframes.length :=
      Nat.mod_eq_of_lt hlen
    have hne : a.keyframes.length % 2 ^ 32 ≠ 0 := by
      rw [h32]
      exact Nat.pos_iff_ne_zero.mp hlenpos
    by_cases ht : 1 ≤ a.t + a.speed * dt
    · exact ⟨{ a with
          t := 0
          current_frame := ((a.current_frame + 1) % 2 ^ 32)
            % (a.keyframes.length % 2 ^ 32) },
        by simp only [Platformer.Animation.update, if_pos ht, if_neg hne]⟩
    · exact ⟨{ a with t := a.t + a.speed * dt },
        by simp only [Platformer.Animation.update, if_neg ht]⟩
  · constructor
    · intro h
      by_contra hge
      rw [Platformer.Animation.currentFrame,
        List.get?_eq_none.mpr (not_lt.mp hge)] at h
      simp at h
    · intro hlt
      rw [Platformer.Animation.currentFrame, List.get?_eq_get hlt]
      rfl

/-- Witness for C6: the default-state animation (empty keyframes,
`speed = 10`, `t = 0`) hits the remainder-by-zero on `update(0.1)`. -/
theorem C6_animation_update_not_total_witness :
    animEmptyEx.keyframes = []
    ∧ (1 : ℚ) ≤ animEmptyEx.t + animEmptyEx.speed * 0.1
    ∧ Platformer.Animation.update animEmptyEx 0.1 = none := by
  have h1 : animEmptyEx.keyframes = [] := rfl
  have h2 : (1 : ℚ) ≤ animEmptyEx.t + animEmptyEx.speed * 0.1 := by
    norm_num [animEmptyEx]
  exact ⟨h1, h2,
    (C6_animation_update_not_total_on_empty animEmptyEx 0.1).1 h1 h2⟩

/-- Claim C8: in every completing call of the platformer
`Player::on_update` on a 2D rigid body node, the horizontal velocity is
set to 3.0 when `move_left` is held, to -3.0 when `move_right` is held
(`move_left` taking precedence), and to 0.0 otherwise; with `jump` false
only the horizontal component changes and the vertical one is preserved,
with `jump` true the vertical component becomes 4.0; and
`current_animation` becomes 0 exactly when the chosen horizontal speed is
nonzero, 1 otherwise. -/
theorem C8_platformer_movement :
    ∀ (p : Platformer.Player) (node : Platformer.PNode) (g : Platformer.PGraph)
      (dt : ℚ) (v : Vec2) (out : Platformer.Player × Platformer.PNode × Platformer.PGraph),
      node.kind = Platformer.PNodeKind.rigidBody2d v →
      Platformer.Player.on_update p node g dt = some out →
      ((p.move_left = true →
          out.2.1.kind = Platformer.PNodeKind.rigidBody2d
            ⟨3, if p.jump then 4 else v.y⟩)
      ∧ (p.move_left = false → p.move_right = true →
          out.2.1.kind = Platformer.PNodeKind.rigidBody2d
            ⟨-3, if p.jump then 4 else v.y⟩)
      ∧ (p.move_left = false → p.move_right = false →
          out.2.1.kind = Platformer.PNodeKind.rigidBody2d
            ⟨0, if p.jump then 4 else v.y⟩)
      ∧ (p.jump = true →
          out.2.1.kind = Platformer.PNodeKind.rigidBody2d
            ⟨if p.move_left then 3 else if p.move_right then -3 else 0, 4⟩)
      ∧ (p.jump = false →
          out.2.1.kind = Platformer.PNodeKind.rigidBody2d
            ⟨if p.move_left then 3 else if p.move_right then -3 else 0, v.y⟩)
      ∧ out.1.current_animation
          = (if (if p.move_left then (3 : ℚ) else if p.move_right then -3 else 0) ≠ 0
             then 0 else 1)) := by
  intro p node g dt v out hk h
  have hmv := Platformer.Player.update_movement_rigid p node g v hk
  have hsome := Platformer.Player.update_animation_some _ _ _ _ _ h
  have hnode : out.2.1 = { node with
      kind := Platformer.PNodeKind.rigidBody2d ⟨(if p.move_left then
        (3 : ℚ) else if p.move_right then -3 else 0),
        (if p.jump then 4 else v.y)⟩ } := by
    rw [hsome.1, hmv.2]
  have hanim : out.1.current_animation
      = (if (if p.move_left then (3 : ℚ) else if p.move_right then -3 else 0) ≠ 0
         then 0 else 1) := by
    rw [hsome.2.1, hmv.1]
  refine ⟨?_, ?_, ?_, ?_, ?_, hanim⟩
  · intro hl
    rw [hnode]
    simp [hl]
  · intro hl hr
    rw [hnode]
    simp [hl, hr]
  · intro hl hr
    rw [hnode]
    simp [hl, hr]
  · intro hj
    rw [hnode]
    simp [hj]
  · intro hj
    rw [hnode]
    simp [hj]

/-- Witness for C8: a player holding only `move_left` on a resting 2D
rigid body gets horizontal velocity 3, keeps vertical velocity 0 (no
jump), and selects animation 0. -/
theorem C8_platformer_movement_witness :
    nodeBodyEx.kind = Platformer.PNodeKind.rigidBody2d ⟨0, 0⟩
    ∧ Platformer.Player.on_update playerEx nodeBodyEx pgEx 0
        = some ({ playerEx with current_animation := 0 },
            { nodeBodyEx with kind := Platformer.PNodeKind.rigidBody2d ⟨3, 0⟩ },
            pgEx)
    ∧ ({ nodeBodyEx with
          kind := Platformer.PNodeKind.rigidBody2d ⟨3, 0⟩ } : Platformer.PNode).kind
        = Platformer.PNodeKind.rigidBody2d ⟨3, if playerEx.jump then 4 else (0 : ℚ)⟩
    ∧ ({ playerEx with current_animation := 0 } : Platformer.Player).current_animation
        = 0 := by
  have hout : Platformer.Player.on_update playerEx nodeBodyEx pgEx 0
      = some ({ playerEx with current_animation := 0 },
          { nodeBodyEx with kind := Platformer.PNodeKind.rigidBody2d ⟨3, 0⟩ },
          pgEx) := by
    simp only [Platformer.Player.on_update, Platformer.Player.update_movement,
      Platformer.Player.update_animation, playerEx, nodeBodyEx, pgEx]
    norm_num
  have h := C8_platformer_movement playerEx nodeBodyEx pgEx 0 ⟨0, 0⟩ _ rfl hout
  have h1 := h.1 rfl
  refine ⟨rfl, hout, ?_, ?_⟩
  · exact h1
  · exact h.2.2.2.2.2

/-- Counterexample to claim C9 as stated: with an unassigned sprite handle
(`Handle::NONE`, absent from the graph) the update does NOT always
complete — if the animation selected for stepping has an empty keyframes
list and its accumulator reaches 1.0, `Animation::update` hits the
remainder-by-zero panic of C6, so `on_update` panics as well (here:
returns `none`).  Handle validity is not the only panic source in this
path. -/
theorem C9_platformer_totality_counterexample :
    pgEx playerBadAnimEx.sprite = none
    ∧ Platformer.Player.on_update playerBadAnimEx nodeBodyEx pgEx 0.1 = none := by
  constructor
  · rfl
  · simp only [Platformer.Player.on_update, Platformer.Player.update_movement,
      Platformer.Player.update_animation, Platformer.Animation.update,
      playerBadAnimEx, nodeBodyEx, pgEx, animEmptyEx, animEx]
    norm_num

/-- Claim C9, amended: provided additionally that every animation in the
list has a non-empty keyframes list (of `u32`-representable length), an
update with an unassigned or absent sprite handle completes, still applies
the velocity and animation-index changes, and leaves the scene graph
entirely unchanged (no sprite mirroring, no texture assignment); and when
the script's node is not a 2D rigid body, the node (hence the velocity)
and `current_animation` are not modified.  Every scene-graph access in
this path is a total `try_get_mut`-style lookup. -/
theorem C9_platformer_invalid_handles_amended :
    (∀ (p : Platformer.Player) (node : Platformer.PNode) (g : Platformer.PGraph)
        (dt : ℚ),
      g p.sprite = none →
      (∀ a ∈ p.animations, a.keyframes ≠ [] ∧ a.keyframes.length < 2 ^ 32) →
      ∃ out, Platformer.Player.on_update p node g dt = some out
        ∧ out.2.2 = g
        ∧ (∀ v : Vec2, node.kind = Platformer.PNodeKind.rigidBody2d v →
            out.2.1.kind = Platformer.PNodeKind.rigidBody2d
              ⟨(if p.move_left then (3 : ℚ) else if p.move_right then -3 else 0),
               (if p.jump then 4 else v.y)⟩
            ∧ out.1.current_animation
              = (if (if p.move_left then (3 : ℚ) else if p.move_right then -3 else 0) ≠ 0
                 then 0 else 1)))
    ∧ (∀ (p : Platformer.Player) (node : Platformer.PNode) (g : Platformer.PGraph)
        (dt : ℚ) (out : Platformer.Player × Platformer.PNode × Platformer.PGraph),
        (∀ v : Vec2, node.kind ≠ Platformer.PNodeKind.rigidBody2d v) →
        Platformer.Player.on_update p node g dt = some out →
        out.2.1 = node ∧ out.1.current_animation = p.current_animation) := by
  constructor
  · intro p node g dt hs hgood
    have hkeeps := Platformer.Player.update_movement_keeps p node g
    have hg1 : (Platformer.Player.update_movement p node g).2.2 = g :=
      Platformer.Player.update_movement_graph_none p node g hs
    have hgood1 : ∀ a ∈ (Platformer.Player.update_movement p node g).1.animations,
        a.keyframes ≠ [] ∧ a.keyframes.length < 2 ^ 32 := by
      rw [hkeeps.2]
      exact hgood
    obtain ⟨out, hout⟩ := Platformer.Player.update_animation_total
      (Platformer.Player.update_movement p node g).1
      (Platformer.Player.update_movement p node g).2.1
      (Platformer.Player.update_movement p node g).2.2 dt hgood1
    have hsome := Platformer.Player.update_animation_some _ _ _ _ _ hout
    have hs1 : (Platformer.Player.update_movement p node g).2.2
        ((Platformer.Player.update_movement p node g).1.sprite) = none := by
      rw [hkeeps.1, hg1]
      exact hs
    have hgfinal : out.2.2 = g := by
      rw [Platformer.Player.update_animation_graph_none _ _ _ _ _ hs1 hout, hg1]
    refine ⟨out, hout, hgfinal, ?_⟩
    intro v hk
    have hmv := Platformer.Player.update_movement_rigid p node g v hk
    constructor
    · rw [hsome.1, hmv.2]
    · rw [hsome.2.1, hmv.1]
  · intro p node g dt out hk h
    have hmv := Platformer.Player.update_movement_other p node g hk
    have h' : Platformer.Player.update_animation p node g dt = some out := by
      have : Platformer.Player.on_update p node g dt
          = Platformer.Player.update_animation p node g dt := by
        simp only [Platformer.Player.on_update, hmv]
      rw [this] at h
      exact h
    have hsome := Platformer.Player.update_animation_some _ _ _ _ _ h'
    exact ⟨hsome.1, hsome.2.1⟩

/-- Witness for C9: the example player (unassigned sprite, empty
animations list) on a non-rigid-body node — the update completes, leaves
the graph unchanged, and, by the second conjunct, does not modify node or
animation index. -/
theorem C9_platformer_invalid_handles_amended_witness :
    pgEx playerEx.sprite = none
    ∧ (∀ a ∈ playerEx.animations, a.keyframes ≠ [] ∧ a.keyframes.length < 2 ^ 32)
    ∧ (∃ out, Platformer.Player.on_update playerEx nodeOtherEx pgEx 1 = some out
        ∧ out.2.2 = pgEx)
    ∧ (∀ out, Platformer.Player.on_update playerEx nodeOtherEx pgEx 1 = some out →
        out.2.1 = nodeOtherEx ∧ out.1.current_animation = playerEx.current_animation) := by
  have hgood : ∀ a ∈ playerEx.animations,
      a.keyframes ≠ [] ∧ a.keyframes.length < 2 ^ 32 := by
    intro a ha
    simp [playerEx] at ha
  have hother : ∀ v : Vec2, nodeOtherEx.kind ≠ Platformer.PNodeKind.rigidBody2d v := by
    intro v h
    simp [nodeOtherEx] at h
  obtain ⟨out, h1, h2, _⟩ :=
    C9_platformer_invalid_handles_amended.1 playerEx nodeOtherEx pgEx 1 rfl hgood
  refine ⟨rfl, hgood, ⟨out, h1, h2⟩, ?_⟩
  intro out' hout'
  exact C9_platformer_invalid_handles_amended.2 playerEx nodeOtherEx pgEx 1 out'
    hother hout'

/-- Claim C10: the platformer script and plugin identifiers are constants
independent of instance state — `Player::id()` always returns the UUID
c5671d19-9f1a-4286-8486-add4ebaadaec, `Player::plugin_uuid()` always
returns the Game plugin UUID cb358b1c-fc23-4c44-9e59-0a9671324196 (so any
two instances agree), and `Game::on_register` registers exactly one script
constructor, under the name "Player", for that script type. -/
theorem C10_uuid_registry :
    (∀ p : Platformer.Player, Platformer.Player.id p
        = 0xc5671d199f1a42868486add4ebaadaec)
    ∧ (∀ p : Platformer.Player, Platformer.Player.plugin_uuid p
        = 0xcb358b1cfc234c449e590a9671324196)
    ∧ (∀ p q : Platformer.Player,
        Platformer.Player.id p = Platformer.Player.id q
        ∧ Platformer.Player.plugin_uuid p = Platformer.Player.plugin_uuid q)
    ∧ Platformer.Game.on_register = [("Player", Platformer.Player.type_uuid)]
    ∧ Platformer.Game.on_register.length = 1 := by
  exact ⟨fun p => rfl, fun p => rfl, fun p q => ⟨rfl, rfl⟩, rfl, rfl⟩

end Spec2Proof
